import Mathlib

/-!
Verification of the line-kommo-bridge webhook relay.

The repository contains several near-duplicate rewrites of the same
Express application.  The embedding below models the pure decision logic
of each variant that the claims cite, with every outbound HTTP call
(axios) represented by an oracle argument: the oracle value is the data
the remote service would return, and an `Except Unit` oracle result
models a request that throws.  Node string truthiness (undefined or the
empty string are falsy) is modelled by `truthyS` on `Option String`.

Variant naming used throughout:
  V1 = first half of src/index.js          (OAuth client-credentials variant)
  V2 = second half of src/index.js         (long-lived API key variant)
  P0 = src/unnamed/part_000 (two variants)
  P1 = src/unnamed/part_001
  P2 = src/unnamed/part_002
-/

/-! ## JavaScript string primitives -/

/-- Model of JS string truthiness for a possibly absent value:
`undefined`, `null` and `""` are falsy. -/
def truthyS : Option String → Bool
  | none => false
  | some s => !(s == "")

/-- First truthy value of a JS `a || b || c || null` chain. -/
def firstTruthy : List (Option String) → Option String
  | [] => none
  | o :: rest => if truthyS o then o else firstTruthy rest

/-- Model of JS `String.prototype.trim`: strip whitespace at both ends. -/
def jsTrim (s : String) : String :=
  String.mk (((s.data.dropWhile Char.isWhitespace).reverse.dropWhile
    Char.isWhitespace).reverse)

/-- Boolean list prefix test (model for JS `startsWith` on char lists). -/
def hasPrefixChars : List Char → List Char → Bool
  | [], _ => true
  | _ :: _, [] => false
  | p :: ps, c :: cs => p == c && hasPrefixChars ps cs

/-- Boolean substring test on char lists (model for JS `includes`). -/
def hasSubstrChars (pat : List Char) : List Char → Bool
  | [] => pat.isEmpty
  | c :: cs => hasPrefixChars pat (c :: cs) || hasSubstrChars pat cs

/-- Model of JS `key.startsWith(pat)`. -/
def strStartsWith (s pat : String) : Bool := hasPrefixChars pat.data s.data

/-- Model of JS `key.endsWith(pat)`. -/
def strEndsWith (s pat : String) : Bool :=
  hasPrefixChars pat.data.reverse s.data.reverse

/-- Model of JS `key.includes(pat)`. -/
def strHasSubstr (s pat : String) : Bool := hasSubstrChars pat.data s.data

/-- Model of JS `s.slice(n)` / dropping the first `n` characters. -/
def strDrop (s : String) (n : Nat) : String := String.mk (s.data.drop n)

/-! ## Signature verifier (src/index.js:103-126 and 683-706, part_000:219-239,
part_001:94-125, part_002:25-43)

The HMAC-SHA256-then-base64 primitive is Node library code, not repository
code, so it enters the model as an explicit function argument
`hmac : secret → body → digest`; every theorem below is proved for an
arbitrary such function. -/

/-- verifyLineSignature of src/index.js (both halves, lines 103-126 and
683-706): missing secret passes, missing or empty header fails, otherwise
compare the digest with the header for exact equality. -/
def verifyLineSignatureV1 (hmac : String → String → String)
    (secret : Option String) (rawBody : String) (sig : Option String) : Bool :=
  if !truthyS secret then true
  else if !truthyS sig then false
  else hmac (secret.getD "") rawBody == sig.getD ""

/-- verifyLineSignature of part_000 (both halves, lines 219-239 and 488-506)
and part_002 (lines 25-43): missing secret or missing header passes,
otherwise compare for exact equality. -/
def verifyLineSignatureP0 (hmac : String → String → String)
    (secret : Option String) (rawBody : String) (sig : Option String) : Bool :=
  if !truthyS secret || !truthyS sig then true
  else hmac (secret.getD "") rawBody == sig.getD ""

/-- verifyLineSignature of part_001 (lines 94-125): the digest is computed
and compared, a mismatch is logged, but the function returns true on every
path (the source comments call this a deliberate debugging relaxation). -/
def verifyLineSignatureP1 (hmac : String → String → String)
    (secret : Option String) (rawBody : String) (sig : Option String) : Bool :=
  if !truthyS secret then true
  else if !truthyS sig then true
  else
    let _ := hmac (secret.getD "") rawBody == sig.getD ""
    true

/-! ## Kommo lead resolve-or-create (src/index.js:304-375, part_001:313-387) -/

/-- Lead record as returned by the Kommo leads search. -/
structure Lead where
  id : Nat
  status_id : Nat
  name : String
deriving DecidableEq, Repr

/-- Predicate from src/index.js:318-321: a lead is reusable unless its
status is one of the terminal codes 142 (won) or 143 (lost). -/
def isActiveLead (l : Lead) : Bool :=
  !(l.status_id == 142) && !(l.status_id == 143)

/-- Outcome of findOrCreateLeadForContact once the CRM answered. -/
inductive LeadOutcome where
  | reuse (l : Lead)
  | create
deriving DecidableEq, Repr

/-- Decision core of findOrCreateLeadForContact (src/index.js:304-375).
`contactId` is the possibly-null argument (JS falsy check on entry);
`searchResult` is the lead list from the CRM, `none` when the search
request threw (the catch falls through to creation).  The result is
`none` when the function bails out with a null leadId before any CRM
call, otherwise the reuse/create decision. -/
def findOrCreateLeadDecision (contactId : Option Nat)
    (searchResult : Option (List Lead)) : Option LeadOutcome :=
  match contactId with
  | none => none
  | some cid =>
    if cid == 0 then none
    else
      let leads := searchResult.getD []
      match leads.find? isActiveLead with
      | some l => some (.reuse l)
      | none => some .create

/-! ## Kommo OAuth token cache (src/index.js:36-75) -/

/-- In-memory token cache, field for field from src/index.js:36-39.
Times are in milliseconds as in the source. -/
structure TokenCache where
  accessToken : Option String
  expiresAt : Int
deriving DecidableEq, Repr

/-- Body of a successful OAuth response, as read by the source. -/
structure TokenResp where
  access_token : String
  expires_in : Int
deriving DecidableEq, Repr

/-- Result of getKommoAccessToken: the token, the cache afterwards, and
whether an HTTP token request was performed. -/
structure TokenResult where
  token : String
  cache : TokenCache
  fetched : Bool
deriving DecidableEq, Repr

/-- getKommoAccessToken (src/index.js:41-75).  `now` is Date.now() in
milliseconds, `envOk` is the presence of the three Kommo env variables,
`fetch` is the OAuth POST oracle (`none` = the request threw).  An
`Except.error` models every `throw` in the source. -/
def getKommoAccessToken (cache : TokenCache) (now : Int) (envOk : Bool)
    (fetch : Option TokenResp) : Except Unit TokenResult :=
  if truthyS cache.accessToken && decide (cache.expiresAt - now > 60000) then
    .ok ⟨cache.accessToken.getD "", cache, false⟩
  else if !envOk then
    .error ()
  else
    match fetch with
    | none => .error ()
    | some d =>
      if !truthyS (some d.access_token) || d.expires_in == 0 then
        .error ()
      else
        .ok ⟨d.access_token,
          ⟨some d.access_token, now + d.expires_in * 1000⟩, true⟩

/-! ## Identity correlator: reverse lookup -/

/-- Contact record with the fields the correlator reads: display name and
the names of the embedded tags. -/
structure Contact where
  name : Option String
  tags : List String
deriving DecidableEq, Repr

/-- extractLineUserIdFromContact of src/index.js:206-217 (same code at
part_001:205-216): find the first tag whose name starts with LINE_UID_
and strip that prefix (String.replace removes the first occurrence,
which is the leading one); the display name is never consulted.  A null
contact yields an empty tag list upstream, hence none here. -/
def extractLineUserIdFromContactV1 : Option Contact → Option String
  | none => none
  | some c =>
    match c.tags.find? (fun t => strStartsWith t "LINE_UID_") with
    | none => none
    | some t => some (strDrop t 9)

/-- Regex /^LINE\s+([^:]+):/ from part_002:353 and part_000:307/811:
literal LINE, at least one whitespace, a nonempty run of non-colon
characters (the capture), then a colon. -/
def execLineColonRegex (s : String) : Option String :=
  if strStartsWith s "LINE" then
    let rest := s.data.drop 4
    let ws := rest.takeWhile Char.isWhitespace
    if ws.isEmpty then none
    else
      let afterWs := rest.dropWhile Char.isWhitespace
      let cap := afterWs.takeWhile (fun c => !(c == ':'))
      match cap, afterWs.drop cap.length with
      | [], _ => none
      | _ :: _, ':' :: _ => some (String.mk cap)
      | _ :: _, _ => none
  else none

/-- Regex /LINE\s+([^:\s]+)/ from src/index.js:1175 (unanchored search):
first position where LINE is followed by whitespace and then a nonempty
run of characters that are neither colon nor whitespace. -/
def execLineLooseRegexAt (l : List Char) : Option String :=
  if hasPrefixChars "LINE".data l then
    let rest := l.drop 4
    let ws := rest.takeWhile Char.isWhitespace
    if ws.isEmpty then none
    else
      let afterWs := rest.dropWhile Char.isWhitespace
      match afterWs.takeWhile (fun c => !(c == ':') && !c.isWhitespace) with
      | [] => none
      | cap => some (String.mk cap)
  else none

/-- Scan for the first match of the unanchored regex. -/
def execLineLooseRegexChars : List Char → Option String
  | [] => none
  | c :: cs =>
    match execLineLooseRegexAt (c :: cs) with
    | some r => some r
    | none => execLineLooseRegexChars cs

/-- JS `/LINE\s+([^:\s]+)/.exec(s)` capture group. -/
def execLineLooseRegex (s : String) : Option String :=
  execLineLooseRegexChars s.data

/-- Match attempt at one position for /LINE\s+([0-9a-zA-Z]+)/ from
src/index.js:1196: LINE, whitespace, then a nonempty alphanumeric run. -/
def execLineAlnumRegexAt (l : List Char) : Option String :=
  if hasPrefixChars "LINE".data l then
    let rest := l.drop 4
    if (rest.takeWhile Char.isWhitespace).isEmpty then none
    else
      let afterWs := rest.dropWhile Char.isWhitespace
      match afterWs.takeWhile (fun c => c.isDigit || c.isAlpha) with
      | [] => none
      | cap => some (String.mk cap)
  else none

/-- Scan for the first match of the unanchored alphanumeric regex. -/
def execLineAlnumRegexChars : List Char → Option String
  | [] => none
  | c :: cs =>
    match execLineAlnumRegexAt (c :: cs) with
    | some r => some r
    | none => execLineAlnumRegexChars cs

/-- JS `/LINE\s+([0-9a-zA-Z]+)/.exec(s)` capture group. -/
def execLineAlnumRegex (s : String) : Option String :=
  execLineAlnumRegexChars s.data

/-! ## part_002 Kommo webhook identity resolution (part_002:301-387) -/

/-- Tag names collected from the parsed webhook body (part_002:321-330):
entries whose key contains the substring enclosed-in-brackets _embedded
followed by tags and ends with a bracketed name segment. -/
def tagNamesOf (pb : List (String × String)) : List String :=
  (pb.filter (fun kv =>
    strHasSubstr kv.1 "[_embedded][tags]" && strEndsWith kv.1 "[name]")).map
    (fun kv => kv.2)

/-- First tag matching /^LINE_UID_(.+)$/ (part_002:342-348): the capture
requires at least one character after the prefix. -/
def firstUidFromTags : List String → Option String
  | [] => none
  | t :: rest =>
    if strStartsWith t "LINE_UID_" && decide (9 < t.data.length) then
      some (strDrop t 9)
    else firstUidFromTags rest

/-! ## Deep search for a LINE user id (part_000:671-706, part_002:179-214)

A JavaScript value reachable from the webhook payload is a graph whose
object and array nodes may share children and may contain cycles.  It is
modelled as a finite pointer graph: `n` node handles, each holding a
string, a non-string primitive, or an ordered child list (covering both
arrays and the `Object.keys` order of plain objects). -/

/-- One JavaScript value node. -/
inductive GNode (n : Nat) where
  | str (s : String)
  | prim
  | coll (children : List (Fin n))

/-- A finite JavaScript value graph. -/
structure ObjGraph where
  n : Nat
  node : Fin n → GNode n

/-- Case-insensitive hex digit, the character class of /[0-9a-f]/i. -/
def isHexDigitCI (c : Char) : Bool :=
  c.isDigit || ('a' ≤ c && c ≤ 'f') || ('A' ≤ c && c ≤ 'F')

/-- Test for /^U[0-9a-f]\x7b16,\x7d$/i : a U (either case) followed by at
least 16 case-insensitive hex digits, nothing else. -/
def isLineUserId (s : String) : Bool :=
  match s.data with
  | [] => false
  | c :: rest =>
    (c == 'U' || c == 'u') && decide (16 ≤ rest.length) && rest.all isHexDigitCI

/-- Iterative form of the recursive helper of deepSearchLineUserId
(part_002:182-211).  The worklist holds the nodes still to be inspected
in depth-first pre-order; `visited` is the WeakSet of already-entered
collection nodes.  A string node answers if its trimmed form matches the
user-id pattern; an unvisited collection node prepends its children.
Sequencing the children before the tail of the worklist is exactly the
early-return child loop of the source. -/
def dfsGo (g : ObjGraph) : List (Fin g.n) → Finset (Fin g.n) → Option String
  | [], _ => none
  | v :: rest, visited =>
    match g.node v with
    | .str s =>
      let candidate := jsTrim s
      if isLineUserId candidate then some candidate else dfsGo g rest visited
    | .prim => dfsGo g rest visited
    | .coll cs =>
      if v ∈ visited then dfsGo g rest visited
      else dfsGo g (cs ++ rest) (insert v visited)
termination_by work visited => (g.n - visited.card, work.length)
decreasing_by
  all_goals
    first
      | (apply Prod.Lex.right; simp only [List.length_cons]; omega)
      | (apply Prod.Lex.left;
         have h1 : (insert v visited).card = visited.card + 1 :=
           Finset.card_insert_of_not_mem (by assumption);
         have h2 : (insert v visited).card ≤ g.n := by
           simpa using Finset.card_le_univ (insert v visited);
         omega)

/-- deepSearchLineUserId (part_002:179-214): run the helper on the root
with an empty visited set. -/
def deepSearchLineUserId (g : ObjGraph) (root : Fin g.n) : Option String :=
  dfsGo g [root] ∅

/-- A fetched contact value: a graph plus the handle of the value itself. -/
structure RootedObj where
  graph : ObjGraph
  root : Fin graph.n

/-- extractLineUserIdFromContact of part_002:217-224: null and
non-object values are rejected, otherwise the whole object is deep
searched. -/
def extractLineUserIdFromContactP2 (v : RootedObj) : Option String :=
  match v.graph.node v.root with
  | .coll _ => deepSearchLineUserId v.graph v.root
  | _ => none

/-! ## LINE webhook handlers -/

/-- Event source as delivered by LINE. -/
structure LineSource where
  userId : Option String
  groupId : Option String
  roomId : Option String
deriving DecidableEq, Repr

/-- Message part of a LINE event. -/
structure LineMessage where
  mtype : String
  text : Option String
deriving DecidableEq, Repr

/-- One LINE webhook event. -/
structure LineEvent where
  etype : String
  message : Option LineMessage
  source : Option LineSource
deriving DecidableEq, Repr

/-- Parsed LINE webhook body; `events` is none when the field is missing
or not an array. -/
structure LineData where
  events : Option (List LineEvent)
deriving DecidableEq, Repr

/-- Chat user id resolution: `source.userId || source.groupId ||
source.roomId` applied to `event.source || an empty object` (src/index.js
lines 454-456 and 1078-1080, part_000:360-362 and 738-740,
part_001:477-479, part_002:256-258). -/
def resolveChatUserId (src : Option LineSource) : Option String :=
  match src with
  | none => none
  | some s => firstTruthy [s.userId, s.groupId, s.roomId]

/-- Filter of src/index.js:448-452: only message events whose message
part has type text are processed. -/
def isTextEvent (e : LineEvent) : Bool :=
  e.etype == "message" &&
    (match e.message with
     | some m => m.mtype == "text"
     | none => false)

/-- Downstream operation performed by a LINE webhook handler while
processing one event. -/
inductive LineOp where
  | getProfile (uid : String)
  | ensureContact (uid : String)
  | findOrCreateLead (contactId : Option Nat)
  | addNote (leadId : Option Nat) (text : String)
  | handleIncoming (uid : String) (text : String)
deriving DecidableEq, Repr

/-- Per-event processing of the first src/index.js handler (lines
446-487), identical in part_001:469-513: the chat id falls back to the
literal string unknown, then profile fetch, contact resolve-or-create,
lead resolve-or-create and note append all run.  The oracles supply the
display name, the resolved contact id and the resolved lead id. -/
def eventOpsV1 (profile : String → Option String)
    (contactO : String → Option Nat) (leadO : Option Nat → Option Nat)
    (e : LineEvent) : List LineOp :=
  if isTextEvent e then
    let text := (e.message.bind LineMessage.text).getD ""
    let uid := (resolveChatUserId e.source).getD "unknown"
    let displayName := if truthyS (profile uid) then profile uid else none
    let contactId := contactO uid
    let leadId := leadO contactId
    let prettyName := displayName.getD uid
    [.getProfile uid, .ensureContact uid, .findOrCreateLead contactId,
     .addNote leadId ("From LINE (" ++ prettyName ++ "):\n" ++ text)]
  else []

/-- Per-event processing of the second src/index.js handler (lines
1070-1097): a missing chat id skips the event, otherwise the detached
handleIncomingLineText is started. -/
def eventOpsV2 (e : LineEvent) : List LineOp :=
  if isTextEvent e then
    let text := (e.message.bind LineMessage.text).getD ""
    match resolveChatUserId e.source with
    | none => []
    | some uid => [.handleIncoming uid text]
  else []

/-- HTTP response of a LINE webhook handler: the status and, for JSON
bodies, the value of the ok field. -/
structure LineResp where
  status : Nat
  okBody : Option Bool
deriving DecidableEq, Repr

/-- The first /line/webhook handler of src/index.js (lines 427-491):
reject with 401 when the signature check fails, 400 when the raw body is
not parseable JSON (`parsed` is that parse oracle), 200 otherwise, with
the per-event downstream operations of eventOpsV1. -/
def lineWebhookV1 (hmac : String → String → String) (secret : Option String)
    (rawBody : String) (sig : Option String) (parsed : Option LineData)
    (profile : String → Option String) (contactO : String → Option Nat)
    (leadO : Option Nat → Option Nat) : LineResp × List LineOp :=
  if !verifyLineSignatureV1 hmac secret rawBody sig then (⟨401, none⟩, [])
  else
    match parsed with
    | none => (⟨400, none⟩, [])
    | some d =>
      match d.events with
      | none => (⟨200, some true⟩, [])
      | some evs =>
        (⟨200, some true⟩, (evs.map (eventOpsV1 profile contactO leadO)).flatten)

/-- The second /line/webhook handler of src/index.js (lines 1051-1101):
same gate structure (its verifyLineSignature at lines 683-706 is the same
decision function as verifyLineSignatureV1), per-event processing of
eventOpsV2. -/
def lineWebhookV2 (hmac : String → String → String) (secret : Option String)
    (rawBody : String) (sig : Option String) (parsed : Option LineData) :
    LineResp × List LineOp :=
  if !verifyLineSignatureV1 hmac secret rawBody sig then (⟨401, none⟩, [])
  else
    match parsed with
    | none => (⟨400, none⟩, [])
    | some d =>
      match d.events with
      | none => (⟨200, some true⟩, [])
      | some evs => (⟨200, some true⟩, (evs.map eventOpsV2).flatten)

/-- The /line/webhook handler of part_001 (lines 445-518): the signature
check is evaluated but its verdict is discarded, so no 401 branch
exists; the rest matches the first src/index.js handler. -/
def lineWebhookP1 (hmac : String → String → String) (secret : Option String)
    (rawBody : String) (sig : Option String) (parsed : Option LineData)
    (profile : String → Option String) (contactO : String → Option Nat)
    (leadO : Option Nat → Option Nat) : LineResp × List LineOp :=
  let _ := verifyLineSignatureP1 hmac secret rawBody sig
  match parsed with
  | none => (⟨400, none⟩, [])
  | some d =>
    match d.events with
    | none => (⟨200, some true⟩, [])
    | some evs =>
      (⟨200, some true⟩, (evs.map (eventOpsV1 profile contactO leadO)).flatten)

/-! ## Kommo webhook handlers -/

/-- Lookup in the flat key-value mapping produced by querystring.parse. -/
def lookupKV (pb : List (String × String)) (k : String) : Option String :=
  (pb.find? (fun kv => kv.1 == k)).map (fun kv => kv.2)

/-- HTTP response of a Kommo webhook handler: the status plus the values
of the JSON fields the variants emit (`none` = field absent, and every
field absent = non-JSON or empty body). -/
structure KommoHttpResp where
  status : Nat
  okField : Option Bool
  skippedField : Option Bool
  sentField : Option Bool
  sentToLineField : Option Bool
  reasonField : Option String
deriving DecidableEq, Repr

/-- Result of a Kommo webhook handler: the HTTP response and the list of
LINE push messages sent (pairs of recipient id and text). -/
structure KommoOut where
  resp : KommoHttpResp
  sent : List (String × String)
deriving DecidableEq, Repr

/-- Empty 200 answer of the OPTIONS preflight branches. -/
def respOptionsEnd : KommoHttpResp := ⟨200, none, none, none, none, none⟩

/-- getKommoContactAndLineUserId of src/index.js:399-422, contact part:
when no contact id is given but a lead id is, the lead is fetched and its
first embedded contact id is taken; then the contact is fetched.  The
whole block sits in one try/catch, so a throw in either fetch leaves the
contact null.  Entity ids are modelled as opaque strings. -/
def kommoContactLookupV1 (leadFetch : String → Except Unit (List String))
    (contactFetch : String → Except Unit Contact)
    (leadId contactId : Option String) : Option Contact :=
  let run : Except Unit (Option Contact) := do
    let cid ←
      if !truthyS contactId && truthyS leadId then do
        let contacts ← leadFetch (leadId.getD "")
        match contacts.head? with
        | some c => pure (some c)
        | none => pure contactId
      else pure contactId
    if truthyS cid then do
      let c ← contactFetch (cid.getD "")
      pure (some c)
    else
      pure none
  match run with
  | .ok c => c
  | .error _ => none

/-- Tail of getKommoContactAndLineUserId (src/index.js:419): run the tag
extraction on whatever contact the lookup produced. -/
def kommoLineUserIdV1 (leadFetch : String → Except Unit (List String))
    (contactFetch : String → Except Unit Contact)
    (leadId contactId : Option String) : Option String :=
  extractLineUserIdFromContactV1
    (kommoContactLookupV1 leadFetch contactFetch leadId contactId)

/-- Reply text of the first src/index.js Kommo handler (lines 536-544):
a JS or-chain over the candidate keys, defaulting to the empty string. -/
def replyTextV1 (pb : List (String × String)) : String :=
  (firstTruthy [lookupKV pb "reply_text", lookupKV pb "text",
    lookupKV pb "note[text]", lookupKV pb "this_item[text]",
    lookupKV pb "message"]).getD ""

/-- Lead id extraction of the first src/index.js Kommo handler
(lines 520-525). -/
def kommoLeadIdV1 (pb : List (String × String)) : Option String :=
  firstTruthy [lookupKV pb "this_item[id]", lookupKV pb "lead[id]",
    lookupKV pb "leads[update][0][id]", lookupKV pb "leads[add][0][id]"]

/-- Contact id extraction of the first src/index.js Kommo handler
(lines 526-530). -/
def kommoContactIdV1 (pb : List (String × String)) : Option String :=
  firstTruthy [lookupKV pb "this_item[_embedded][contacts][0][id]",
    lookupKV pb "contact[id]", lookupKV pb "contacts[0][id]"]

/-- The first /kommo/webhook handler of src/index.js (lines 497-625).
Blank reply text answers skipped without any lookup or push; an
unresolvable LINE user id answers skipped; otherwise the push message is
fired (before the OPTIONS check, hence on the OPTIONS path too) and the
sent confirmation is returned.  The top-level catch (lines 615-623) is
not reachable: both fetches sit behind the internal catch of
kommoContactLookupV1 and the push is detached. -/
def kommoWebhookV1 (method : String) (pb : List (String × String))
    (leadFetch : String → Except Unit (List String))
    (contactFetch : String → Except Unit Contact) : KommoOut :=
  let replyText := replyTextV1 pb
  if !truthyS (some replyText) || jsTrim replyText == "" then
    if method == "OPTIONS" then ⟨respOptionsEnd, []⟩
    else ⟨⟨200, some true, some true, none, none, some "no reply text"⟩, []⟩
  else
    match kommoLineUserIdV1 leadFetch contactFetch (kommoLeadIdV1 pb)
        (kommoContactIdV1 pb) with
    | none =>
      if method == "OPTIONS" then ⟨respOptionsEnd, []⟩
      else ⟨⟨200, some true, some true, none, none, some "no lineUserId"⟩, []⟩
    | some uid =>
      let finalText := jsTrim replyText
      if method == "OPTIONS" then ⟨respOptionsEnd, [(uid, finalText)]⟩
      else ⟨⟨200, some true, none, some true, none, none⟩, [(uid, finalText)]⟩

/-- Candidate text keys of the second src/index.js Kommo handler
(lines 1140-1147). -/
def kommoCandidateTextKeys : List String :=
  ["text", "message", "note", "widget[text]", "widget[message]",
   "kommo_widget_text"]

/-- Reply text loop of the second src/index.js Kommo handler
(lines 1148-1158): first candidate whose value is a truthy string with a
truthy trim; unlike the or-chain of the first handler, a whitespace-only
value does not stop the scan. -/
def replyTextLoopV2 (pb : List (String × String)) : List String → String
  | [] => ""
  | k :: rest =>
    match lookupKV pb k with
    | some v =>
      if !(v == "") && !(jsTrim v == "") then jsTrim v
      else replyTextLoopV2 pb rest
    | none => replyTextLoopV2 pb rest

/-- The second /kommo/webhook handler of src/index.js (lines 1105-1240).
OPTIONS is answered first; blank reply text is replaced by the default
text New reply from Kommo. and processing continues; the LINE user id
comes from the lead name regex, else from the fetched contact name
regex.  `contactNameFetch` returns the name field of the fetched
contact. -/
def kommoWebhookV2 (method : String) (pb : List (String × String))
    (envOk : Bool)
    (contactNameFetch : String → Except Unit (Option String)) : KommoOut :=
  if method == "OPTIONS" then ⟨respOptionsEnd, []⟩
  else
    let replyText0 := replyTextLoopV2 pb kommoCandidateTextKeys
    let replyText := if replyText0 == "" then "New reply from Kommo." else replyText0
    let leadName := lookupKV pb "this_item[name]"
    let uidFromLead :=
      if truthyS leadName then execLineLooseRegex (leadName.getD "") else none
    let contactId := firstTruthy
      [lookupKV pb "this_item[_embedded][contacts][0][id]",
       lookupKV pb "contacts[add][0][id]"]
    let uid :=
      match uidFromLead with
      | some u => some u
      | none =>
        if truthyS contactId && envOk then
          match contactNameFetch (contactId.getD "") with
          | .error _ => none
          | .ok nmOpt =>
            let nm := if truthyS nmOpt then nmOpt.getD "" else ""
            execLineAlnumRegex nm
        else none
    let sent := match uid with
      | some u => [(u, replyText)]
      | none => []
    ⟨⟨200, some true, none, none, some uid.isSome, none⟩, sent⟩

/-- Lead name extraction of the part_002 Kommo handler (lines 308-312). -/
def kommoLeadNameP2 (pb : List (String × String)) : Option String :=
  firstTruthy [lookupKV pb "this_item[name]",
    lookupKV pb "leads[add][0][name]", lookupKV pb "leads[update][0][name]"]

/-- Contact id extraction of the part_002 Kommo handler (lines 314-318). -/
def kommoContactIdP2 (pb : List (String × String)) : Option String :=
  firstTruthy [lookupKV pb "this_item[_embedded][contacts][0][id]",
    lookupKV pb "leads[add][0][_embedded][contacts][0][id]",
    lookupKV pb "leads[update][0][_embedded][contacts][0][id]"]

/-- LINE user id resolution of the part_002 Kommo handler
(lines 301-387): the LINE_UID tag from the webhook body wins, then the
anchored lead-name regex, then the deep search over the fetched contact
(`contactFetch` errors model the throwing fetchKommoContact, caught at
the call site). -/
def resolveLineUserIdP2 (pb : List (String × String))
    (contactFetch : String → Except Unit RootedObj) : Option String :=
  let leadName := kommoLeadNameP2 pb
  let contactId := kommoContactIdP2 pb
  match firstUidFromTags (tagNamesOf pb) with
  | some u => some u
  | none =>
    match
      (if truthyS leadName then execLineColonRegex (leadName.getD "")
       else none) with
    | some u => some u
    | none =>
      if truthyS contactId then
        match contactFetch (contactId.getD "") with
        | .error _ => none
        | .ok v => extractLineUserIdFromContactP2 v
      else none

/-- The /kommo/webhook handler of part_002 (lines 280-430).  The push is
fired before the OPTIONS check; every reachable answer is a 200 (the
catch at lines 420-428 is unreachable: the only throwing call is wrapped
at lines 366-386). -/
def kommoWebhookP2 (method : String) (pb : List (String × String))
    (contactFetch : String → Except Unit RootedObj) : KommoOut :=
  let leadId := firstTruthy [lookupKV pb "this_item[id]",
    lookupKV pb "leads[add][0][id]", lookupKV pb "leads[update][0][id]"]
  let uid := resolveLineUserIdP2 pb contactFetch
  let sent := match uid with
    | some u =>
      [(u, "Test reply from Kommo for your lead " ++ leadId.getD "" ++ ".")]
    | none => []
  if method == "OPTIONS" then ⟨respOptionsEnd, sent⟩
  else ⟨⟨200, some true, none, none, none, none⟩, sent⟩

/-- Concrete cyclic value: node 0 is a collection whose first child is
node 0 itself (a cycle) and whose second child is a string holding a
LINE user id with surrounding whitespace. -/
def cycGraph : ObjGraph :=
  ⟨2, ![GNode.coll [⟨0, by decide⟩, ⟨1, by decide⟩],
        GNode.str " U0123456789abcdef "]⟩

/-- Root handle of the cyclic value. -/
def cycRoot : Fin cycGraph.n := ⟨0, by decide⟩

/-! ## Helper lemmas -/

/-- find? returns the element at the first index satisfying the predicate. -/
theorem find?_at_first_index {α : Type} (p : α → Bool) :
    ∀ (l : List α) (i : Nat) (hi : i < l.length),
      p (l.get ⟨i, hi⟩) = true →
      (∀ j (hj : j < i), p (l.get ⟨j, Nat.lt_trans hj hi⟩) = false) →
      l.find? p = some (l.get ⟨i, hi⟩)
  | [], i, hi, _, _ => by simp at hi
  | a :: tl, 0, hi, hp, _ => by
    simp only [List.get] at hp ⊢
    simp [List.find?, hp]
  | a :: tl, i + 1, hi, hp, hprev => by
    have ha : p a = false := hprev 0 (Nat.succ_pos i)
    have hi' : i < tl.length := by
      simp only [List.length_cons] at hi
      omega
    simp only [List.get] at hp ⊢
    rw [List.find?]
    rw [ha]
    exact find?_at_first_index p tl i hi' hp
      (fun j hj => hprev (j + 1) (by omega))

/-- Blank chain values propagate through firstTruthy. -/
theorem firstTruthy_blank (os : List (Option String))
    (h : ∀ o ∈ os, ∀ v, o = some v → jsTrim v = "") :
    jsTrim ((firstTruthy os).getD "") = "" := by
  induction os with
  | nil => decide
  | cons o rest ih =>
    rw [firstTruthy]
    by_cases ht : truthyS o = true
    · rw [if_pos ht]
      cases o with
      | none => simp [truthyS] at ht
      | some v => simpa using h (some v) (by simp) v rfl
    · rw [if_neg ht]
      exact ih (fun o ho v hv => h o (by simp [ho]) v hv)

/-! ## Claims -/

/-- C1 (amended).  With a configured secret and a present, nonempty
signature header, the index.js verifier (both halves) and the
part_000/part_002 verifier return true exactly when the header equals the
digest of the body under the secret, for an arbitrary digest function;
the part_001 verifier instead returns true unconditionally. -/
theorem claim_C1_signature_exact_compare (hmac : String → String → String)
    (secret body sigv : String) (hs : secret ≠ "") (hv : sigv ≠ "") :
    (verifyLineSignatureV1 hmac (some secret) body (some sigv) = true
      ↔ hmac secret body = sigv)
    ∧ (verifyLineSignatureP0 hmac (some secret) body (some sigv) = true
      ↔ hmac secret body = sigv)
    ∧ verifyLineSignatureP1 hmac (some secret) body (some sigv) = true := by
  simp [verifyLineSignatureV1, verifyLineSignatureP0, verifyLineSignatureP1,
    truthyS, hs, hv]

/-- C1 witness: at a concrete secret, body and matching signature the
index.js verifier accepts. -/
theorem claim_C1_signature_exact_compare_witness :
    verifyLineSignatureV1 (fun _ _ => "DIGEST") (some "s") "body"
      (some "DIGEST") = true :=
  (claim_C1_signature_exact_compare (fun _ _ => "DIGEST") "s" "body" "DIGEST"
    (by decide) (by decide)).1.mpr rfl

/-- C1 counterexample: the part_001 verifier (cited by the claim) accepts
a signature different from the digest of the body. -/
theorem claim_C1_counterexample :
    verifyLineSignatureP1 (fun _ _ => "GOOD") (some "s") "body"
      (some "BAD") = true
    ∧ (fun _ _ => "GOOD" : String → String → String) "s" "body" ≠ "BAD" := by
  constructor
  · decide
  · decide

/-- C2: with a secret configured and the signature header absent, the
part_000 and part_001 verifiers return true (skipping verification),
while the index.js verifier returns the false the claim requires. -/
theorem claim_C2_missing_header_eval :
    verifyLineSignatureP0 (fun _ _ => "DIGEST") (some "secret") "body"
      none = true
    ∧ verifyLineSignatureP1 (fun _ _ => "DIGEST") (some "secret") "body"
      none = true
    ∧ verifyLineSignatureV1 (fun _ _ => "DIGEST") (some "secret") "body"
      none = false := by
  refine ⟨by decide, by decide, by decide⟩

/-- C3.  For a truthy contact id and a returned lead list, the decision of
findOrCreateLeadForContact reuses a lead exactly when some listed lead is
outside the terminal statuses 142 and 143; the reused lead is the first
such lead in list order; and when every listed lead is terminal (or the
list is empty) a new lead is created. -/
theorem claim_C3_lead_reuse_iff (cid : Nat) (hcid : cid ≠ 0)
    (leads : List Lead) :
    ((∃ l ∈ leads, isActiveLead l = true)
      ↔ ∃ l, findOrCreateLeadDecision (some cid) (some leads)
          = some (.reuse l))
    ∧ (∀ i (hi : i < leads.length),
        isActiveLead (leads.get ⟨i, hi⟩) = true →
        (∀ j (hj : j < i),
          isActiveLead (leads.get ⟨j, Nat.lt_trans hj hi⟩) = false) →
        findOrCreateLeadDecision (some cid) (some leads)
          = some (.reuse (leads.get ⟨i, hi⟩)))
    ∧ ((∀ l ∈ leads, isActiveLead l = false) →
        findOrCreateLeadDecision (some cid) (some leads) = some .create) := by
  have hbeq : (cid == 0) = false := by simpa using hcid
  refine ⟨?_, ?_, ?_⟩
  · constructor
    · rintro ⟨l, hl, ha⟩
      rcases hf : leads.find? isActiveLead with _ | l'
      · rw [List.find?_eq_none] at hf
        exact absurd ha (by simpa using hf l hl)
      · exact ⟨l', by simp [findOrCreateLeadDecision, hbeq, hf]⟩
    · rintro ⟨l, hl⟩
      simp only [findOrCreateLeadDecision, hbeq] at hl
      rcases hf : leads.find? isActiveLead with _ | l'
      · simp [hf] at hl
      · exact ⟨l', List.mem_of_find?_eq_some hf, List.find?_some hf⟩
  · intro i hi hp hprev
    have hf := find?_at_first_index isActiveLead leads i hi hp hprev
    simp [findOrCreateLeadDecision, hbeq, hf]
  · intro hall
    have hf : leads.find? isActiveLead = none :=
      List.find?_eq_none.mpr (fun l hl => by simp [hall l hl])
    simp [findOrCreateLeadDecision, hbeq, hf]

/-- C3 witness: contact 7 with one terminal lead followed by one open
lead reuses the open lead, the first active one in order. -/
theorem claim_C3_lead_reuse_iff_witness :
    findOrCreateLeadDecision (some 7)
      (some [⟨5, 142, "a"⟩, ⟨6, 50, "b"⟩]) = some (.reuse ⟨6, 50, "b"⟩) := by
  have h := (claim_C3_lead_reuse_iff 7 (by decide)
    [⟨5, 142, "a"⟩, ⟨6, 50, "b"⟩]).2.1 1 (by decide) (by decide)
  exact h (fun j hj => by
    have hj0 : j = 0 := by omega
    subst hj0
    show isActiveLead ⟨5, 142, "a"⟩ = false
    decide)

/-- C4 (amended, for the first src/index.js handler).  A non-OPTIONS
CRM webhook whose parsed body carries a blank reply_text value and no
non-blank value under any other candidate text key is answered 200 with
ok true and skipped true, and no push message is sent. -/
theorem claim_C4_blank_reply_skips (method : String)
    (pb : List (String × String)) (rt : String)
    (leadFetch : String → Except Unit (List String))
    (contactFetch : String → Except Unit Contact)
    (hm : method ≠ "OPTIONS")
    (hrt : lookupKV pb "reply_text" = some rt) (hblank : jsTrim rt = "")
    (hothers : ∀ k ∈ (["text", "note[text]", "this_item[text]",
        "message"] : List String),
      ∀ v, lookupKV pb k = some v → jsTrim v = "") :
    (kommoWebhookV1 method pb leadFetch contactFetch).resp.status = 200
    ∧ (kommoWebhookV1 method pb leadFetch contactFetch).resp.okField
        = some true
    ∧ (kommoWebhookV1 method pb leadFetch contactFetch).resp.skippedField
        = some true
    ∧ (kommoWebhookV1 method pb leadFetch contactFetch).sent = [] := by
  have hall : ∀ o ∈ [lookupKV pb "reply_text", lookupKV pb "text",
      lookupKV pb "note[text]", lookupKV pb "this_item[text]",
      lookupKV pb "message"], ∀ v, o = some v → jsTrim v = "" := by
    intro o ho v hv
    simp only [List.mem_cons, List.not_mem_nil, or_false] at ho
    rcases ho with h | h | h | h | h
    · rw [h, hrt] at hv
      cases hv
      exact hblank
    · exact hothers "text" (by simp) v (h ▸ hv)
    · exact hothers "note[text]" (by simp) v (h ▸ hv)
    · exact hothers "this_item[text]" (by simp) v (h ▸ hv)
    · exact hothers "message" (by simp) v (h ▸ hv)
  have hblank2 : jsTrim (replyTextV1 pb) = "" := by
    unfold replyTextV1
    exact firstTruthy_blank _ hall
  simp [kommoWebhookV1, hblank2, hm]

/-- C4 witness: a POST whose only text-candidate entry is a whitespace
reply_text is skipped with nothing sent. -/
theorem claim_C4_blank_reply_skips_witness :
    (kommoWebhookV1 "POST" [("reply_text", " ")] (fun _ => .error ())
      (fun _ => .error ())).resp.skippedField = some true
    ∧ (kommoWebhookV1 "POST" [("reply_text", " ")] (fun _ => .error ())
      (fun _ => .error ())).sent = [] := by
  have h := claim_C4_blank_reply_skips "POST" [("reply_text", " ")] " "
    (fun _ => .error ()) (fun _ => .error ()) (by decide) (by decide)
    (by decide)
    (by
      intro k hk v hv
      simp only [List.mem_cons, List.not_mem_nil, or_false] at hk
      rcases hk with rfl | rfl | rfl | rfl
      all_goals simp +decide [lookupKV, List.find?] at hv)
  exact ⟨h.2.2.1, h.2.2.2⟩

/-- C4 counterexample: the second src/index.js handler (lines 1105-1240,
cited by the claim) receives a body whose reply_text and text values are
whitespace-only and no other candidate key is present, yet it pushes the
default text New reply from Kommo. to the resolved chat user and answers
without any skipped field. -/
theorem claim_C4_counterexample :
    (kommoWebhookV2 "POST" [("reply_text", "   "), ("text", "   "),
      ("this_item[name]", "LINE U123: hi")] false
      (fun _ => .error ())).sent = [("U123", "New reply from Kommo.")]
    ∧ (kommoWebhookV2 "POST" [("reply_text", "   "), ("text", "   "),
      ("this_item[name]", "LINE U123: hi")] false
      (fun _ => .error ())).resp.skippedField = none
    ∧ (kommoWebhookV2 "POST" [("reply_text", "   "), ("text", "   "),
      ("this_item[name]", "LINE U123: hi")] false
      (fun _ => .error ())).resp.sentToLineField = some true := by
  refine ⟨by decide, by decide, by decide⟩

/-- C5.  Reverse lookup precedence: in the part_002 Kommo handler a
LINE_UID tag in the record wins over any identifier embedded in the lead
name; the name regex is consulted only when no LINE_UID tag matches; and
the index.js extractLineUserIdFromContact returns the id carried by the
first LINE_UID tag of a contact, never reading the display name. -/
theorem claim_C5_tag_precedence :
    (∀ (pb : List (String × String))
       (cf : String → Except Unit RootedObj) (id1 : String),
       firstUidFromTags (tagNamesOf pb) = some id1 →
       resolveLineUserIdP2 pb cf = some id1)
    ∧ (∀ (pb : List (String × String))
       (cf : String → Except Unit RootedObj) (id2 : String),
       firstUidFromTags (tagNamesOf pb) = none →
       truthyS (kommoLeadNameP2 pb) = true →
       execLineColonRegex ((kommoLeadNameP2 pb).getD "") = some id2 →
       resolveLineUserIdP2 pb cf = some id2)
    ∧ (∀ (name : Option String) (tags : List String) (id1 : String),
       tags.find? (fun t => strStartsWith t "LINE_UID_")
         = some ("LINE_UID_" ++ id1) →
       extractLineUserIdFromContactV1 (some ⟨name, tags⟩) = some id1) := by
  refine ⟨?_, ?_, ?_⟩
  · intro pb cf id1 h
    simp [resolveLineUserIdP2, h]
  · intro pb cf id2 h hname hregex
    simp [resolveLineUserIdP2, h, hname, hregex]
  · intro name tags id1 h
    have hdrop : strDrop ("LINE_UID_" ++ id1) 9 = id1 := by
      unfold strDrop
      have : ("LINE_UID_" ++ id1).data = "LINE_UID_".data ++ id1.data :=
        String.data_append "LINE_UID_" id1
      rw [this]
      have h9 : ("LINE_UID_" : String).data.length = 9 := by decide
      rw [← h9, List.drop_left]
    simp [extractLineUserIdFromContactV1, h, hdrop]

/-- C5 witness: a webhook body carrying the tag LINE_UID_U999 and a lead
name embedding the different id U123 resolves to U999. -/
theorem claim_C5_tag_precedence_witness :
    resolveLineUserIdP2
      [("leads[add][0][_embedded][tags][0][name]", "LINE_UID_U999"),
       ("this_item[name]", "LINE U123: hi")]
      (fun _ => .error ()) = some "U999" :=
  claim_C5_tag_precedence.1
    [("leads[add][0][_embedded][tags][0][name]", "LINE_UID_U999"),
     ("this_item[name]", "LINE U123: hi")]
    (fun _ => .error ()) "U999" (by decide)

/-- C6.  Every reachable answer of the first src/index.js Kommo handler
and of the part_002 Kommo handler has status 200, and outside the
OPTIONS preflight branch the JSON body carries ok true.  The 500 catch
branches cited by the claim are unreachable: every awaited operation is
wrapped in its own catch. -/
theorem claim_C6_kommo_always_200 (method : String)
    (pb : List (String × String))
    (leadFetch : String → Except Unit (List String))
    (contactFetch : String → Except Unit Contact)
    (contactFetchP2 : String → Except Unit RootedObj) :
    ((kommoWebhookV1 method pb leadFetch contactFetch).resp.status = 200
      ∧ (method ≠ "OPTIONS" →
        (kommoWebhookV1 method pb leadFetch contactFetch).resp.okField
          = some true))
    ∧ ((kommoWebhookP2 method pb contactFetchP2).resp.status = 200
      ∧ (method ≠ "OPTIONS" →
        (kommoWebhookP2 method pb contactFetchP2).resp.okField
          = some true)) := by
  refine ⟨⟨?_, ?_⟩, ⟨?_, ?_⟩⟩
  · unfold kommoWebhookV1
    repeat' split
    all_goals try simp only []
    repeat' split
    all_goals simp [respOptionsEnd]
  · intro hm
    unfold kommoWebhookV1
    repeat' split
    all_goals try simp only []
    repeat' split
    all_goals simp_all [respOptionsEnd]
  · unfold kommoWebhookP2
    repeat' split
    all_goals try simp only []
    all_goals simp [respOptionsEnd]
  · intro hm
    unfold kommoWebhookP2
    repeat' split
    all_goals try simp only []
    all_goals simp_all [respOptionsEnd]

/-- C6 witness: a concrete POST with an empty body is answered 200 with
ok true by both handlers. -/
theorem claim_C6_kommo_always_200_witness :
    (kommoWebhookV1 "POST" [] (fun _ => .error ())
      (fun _ => .error ())).resp.okField = some true
    ∧ (kommoWebhookP2 "POST" [] (fun _ => .error ())).resp.okField
      = some true :=
  ⟨(claim_C6_kommo_always_200 "POST" [] (fun _ => .error ())
      (fun _ => .error ()) (fun _ => .error ())).1.2 (by decide),
   (claim_C6_kommo_always_200 "POST" [] (fun _ => .error ())
      (fun _ => .error ()) (fun _ => .error ())).2.2 (by decide)⟩

/-- C7 (amended).  For the first src/index.js LINE handler: the answer is
401 exactly when verifyLineSignature returns false, in which case no
downstream operation runs; the answer is 400 exactly when the signature
check passes and the body is unparseable (a bad signature takes
precedence over a bad body).  The part_001 handler never answers 401: it
discards the verification verdict. -/
theorem claim_C7_line_status_gates (hmac : String → String → String)
    (secret : Option String) (rawBody : String) (sig : Option String)
    (parsed : Option LineData) (pO : String → Option String)
    (cO : String → Option Nat) (lO : Option Nat → Option Nat) :
    ((lineWebhookV1 hmac secret rawBody sig parsed pO cO lO).1.status = 401
      ↔ verifyLineSignatureV1 hmac secret rawBody sig = false)
    ∧ (verifyLineSignatureV1 hmac secret rawBody sig = false →
        (lineWebhookV1 hmac secret rawBody sig parsed pO cO lO).2 = [])
    ∧ ((lineWebhookV1 hmac secret rawBody sig parsed pO cO lO).1.status = 400
      ↔ (verifyLineSignatureV1 hmac secret rawBody sig = true
          ∧ parsed = none))
    ∧ (lineWebhookP1 hmac secret rawBody sig parsed pO cO lO).1.status
        ≠ 401 := by
  have hp1 : (lineWebhookP1 hmac secret rawBody sig parsed pO cO lO).1.status
      ≠ 401 := by
    unfold lineWebhookP1
    rcases parsed with _ | d
    · simp
    · rcases hd : d.events with _ | evs <;> simp [hd]
  cases hvv : verifyLineSignatureV1 hmac secret rawBody sig with
  | false => refine ⟨?_, ?_, ?_, hp1⟩ <;> simp [lineWebhookV1, hvv]
  | true =>
    rcases parsed with _ | d
    · refine ⟨?_, ?_, ?_, hp1⟩ <;> simp [lineWebhookV1, hvv]
    · rcases hd : d.events with _ | evs <;>
        (refine ⟨?_, ?_, ?_, hp1⟩ <;> simp [lineWebhookV1, hvv, hd])

/-- C7 witness: with a mismatched signature the first handler performs
zero downstream operations. -/
theorem claim_C7_line_status_gates_witness :
    (lineWebhookV1 (fun _ _ => "SIG") (some "k") "body" (some "BAD")
      (some ⟨some []⟩) (fun _ => none) (fun _ => none)
      (fun _ => none)).2 = [] :=
  (claim_C7_line_status_gates (fun _ _ => "SIG") (some "k") "body"
    (some "BAD") (some ⟨some []⟩) (fun _ => none) (fun _ => none)
    (fun _ => none)).2.1 (by decide)

/-- C7 counterexample: with a mismatched signature and an unparseable
body the first src/index.js handler answers 401 where the claim requires
400; and the part_001 handler, on a mismatched signature with a valid
one-event body, answers 200 and runs downstream operations instead of
answering 401 with none. -/
theorem claim_C7_counterexample :
    (lineWebhookV1 (fun _ _ => "SIG") (some "k") "notjson" (some "BAD")
      none (fun _ => none) (fun _ => none) (fun _ => none)).1.status = 401
    ∧ (lineWebhookP1 (fun _ _ => "SIG") (some "k") "raw" (some "BAD")
      (some ⟨some [⟨"message", some ⟨"text", some "hi"⟩,
        some ⟨some "U1", none, none⟩⟩]⟩)
      (fun _ => none) (fun _ => none) (fun _ => none)).1.status = 200
    ∧ (lineWebhookP1 (fun _ _ => "SIG") (some "k") "raw" (some "BAD")
      (some ⟨some [⟨"message", some ⟨"text", some "hi"⟩,
        some ⟨some "U1", none, none⟩⟩]⟩)
      (fun _ => none) (fun _ => none) (fun _ => none)).2 ≠ []
    ∧ (fun _ _ => "SIG" : String → String → String) "k" "raw" ≠ "BAD" := by
  refine ⟨by decide, by decide, by decide, by decide⟩

/-- C8 (amended).  The chat id is the first truthy value among userId,
groupId, roomId in order; when all three are absent the second
src/index.js handler skips the event with no downstream operation, while
the first handler substitutes the placeholder unknown and performs a
contact operation under it. -/
theorem claim_C8_chat_id_resolution :
    (∀ (u g r : Option String),
      (truthyS u = true → resolveChatUserId (some ⟨u, g, r⟩) = u)
      ∧ (truthyS u = false → truthyS g = true →
          resolveChatUserId (some ⟨u, g, r⟩) = g)
      ∧ (truthyS u = false → truthyS g = false → truthyS r = true →
          resolveChatUserId (some ⟨u, g, r⟩) = r)
      ∧ (truthyS u = false → truthyS g = false → truthyS r = false →
          resolveChatUserId (some ⟨u, g, r⟩) = none))
    ∧ (∀ e : LineEvent, isTextEvent e = true →
        resolveChatUserId e.source = none → eventOpsV2 e = [])
    ∧ (∀ (e : LineEvent) (pO : String → Option String)
        (cO : String → Option Nat) (lO : Option Nat → Option Nat),
        isTextEvent e = true → resolveChatUserId e.source = none →
        LineOp.ensureContact "unknown" ∈ eventOpsV1 pO cO lO e) := by
  refine ⟨?_, ?_, ?_⟩
  · intro u g r
    refine ⟨?_, ?_, ?_, ?_⟩ <;> intros <;>
      simp_all [resolveChatUserId, firstTruthy]
  · intro e he hr
    simp [eventOpsV2, he, hr]
  · intro e pO cO lO he hr
    simp [eventOpsV1, he, hr]

/-- C8 witness: an event whose source has only a group id resolves to the
group id, and an all-absent source makes the second handler skip. -/
theorem claim_C8_chat_id_resolution_witness :
    resolveChatUserId (some ⟨none, some "G7", none⟩) = some "G7"
    ∧ eventOpsV2 ⟨"message", some ⟨"text", some "hi"⟩,
        some ⟨none, none, none⟩⟩ = [] :=
  ⟨(claim_C8_chat_id_resolution.1 none (some "G7") none).2.1 (by decide)
      (by decide),
   claim_C8_chat_id_resolution.2.1 _ (by decide) (by decide)⟩

/-- C8 counterexample: the first src/index.js handler (cited by the
claim) processes a text event with no userId, groupId or roomId by
creating or updating a contact under the placeholder id unknown instead
of skipping it. -/
theorem claim_C8_counterexample :
    LineOp.ensureContact "unknown" ∈
      (lineWebhookV1 (fun _ _ => "SIG") none "raw" none
        (some ⟨some [⟨"message", some ⟨"text", some "hi"⟩,
          some ⟨none, none, none⟩⟩]⟩)
        (fun _ => none) (fun _ => none) (fun _ => none)).2 := by
  decide

/-- C9.  getKommoAccessToken answers from the cache without an HTTP call
exactly when a truthy token is cached with more than 60000 ms of
validity left; on a miss with usable credentials and a well-formed OAuth
response it returns the fresh token and stores it with expiry now plus
expires_in seconds (in ms). -/
theorem claim_C9_token_cache (cache : TokenCache) (now : Int) (envOk : Bool)
    (fetch : Option TokenResp) :
    (truthyS cache.accessToken = true → cache.expiresAt - now > 60000 →
      getKommoAccessToken cache now envOk fetch
        = .ok ⟨cache.accessToken.getD "", cache, false⟩)
    ∧ (∀ d, ¬(truthyS cache.accessToken = true
          ∧ cache.expiresAt - now > 60000) →
        envOk = true → fetch = some d → d.access_token ≠ "" →
        d.expires_in ≠ 0 →
        getKommoAccessToken cache now envOk fetch
          = .ok ⟨d.access_token,
              ⟨some d.access_token, now + d.expires_in * 1000⟩, true⟩)
    ∧ (∀ r, getKommoAccessToken cache now envOk fetch = .ok r →
        r.fetched = false →
        truthyS cache.accessToken = true
          ∧ cache.expiresAt - now > 60000
          ∧ r.token = cache.accessToken.getD "" ∧ r.cache = cache) := by
  refine ⟨?_, ?_, ?_⟩
  · intro h1 h2
    simp [getKommoAccessToken, h1, h2]
  · intro d hmiss henv hf ht he
    subst henv
    subst hf
    have hcond : ¬((truthyS cache.accessToken
        && decide (cache.expiresAt - now > 60000)) = true) := by
      by_cases h1 : truthyS cache.accessToken = true <;>
        by_cases h2 : cache.expiresAt - now > 60000 <;> simp_all
    rw [getKommoAccessToken.eq_def, if_neg hcond]
    simp [truthyS, ht, he]
  · intro r hr hfetched
    by_cases hcond : (truthyS cache.accessToken
        && decide (cache.expiresAt - now > 60000)) = true
    · rw [getKommoAccessToken.eq_def, if_pos hcond] at hr
      have hr2 : r = ⟨cache.accessToken.getD "", cache, false⟩ := by
        cases hr
        rfl
      subst hr2
      simp only [Bool.and_eq_true, decide_eq_true_eq] at hcond
      exact ⟨hcond.1, hcond.2, rfl, rfl⟩
    · exfalso
      rw [getKommoAccessToken.eq_def, if_neg hcond] at hr
      split at hr
      · cases hr
      · split at hr
        · cases hr
        · split at hr
          · cases hr
          · have hft : r.fetched = true := by
              cases hr
              rfl
            rw [hft] at hfetched
            cases hfetched

/-- C9 witness: a still-valid cached token is returned without a fetch;
an expiring cache together with a good OAuth answer yields the fresh
token and the updated expiry 900000 + 3600 * 1000. -/
theorem claim_C9_token_cache_witness :
    getKommoAccessToken ⟨some "tok", 1000000⟩ 900000 true none
      = .ok ⟨"tok", ⟨some "tok", 1000000⟩, false⟩
    ∧ getKommoAccessToken ⟨some "tok", 950000⟩ 900000 true
        (some ⟨"new", 3600⟩)
      = .ok ⟨"new", ⟨some "new", 4500000⟩, true⟩ :=
  ⟨(claim_C9_token_cache ⟨some "tok", 1000000⟩ 900000 true none).1
      (by decide) (by decide),
   (claim_C9_token_cache ⟨some "tok", 950000⟩ 900000 true
      (some ⟨"new", 3600⟩)).2.1 ⟨"new", 3600⟩ (by decide) rfl rfl
      (by decide) (by decide)⟩

/-- Soundness of the deep search: a successful answer is the trimmed
form of some string node of the graph and matches the user-id pattern. -/
theorem dfsGo_sound (g : ObjGraph) (work : List (Fin g.n))
    (visited : Finset (Fin g.n)) :
    ∀ s, dfsGo g work visited = some s →
      isLineUserId s = true ∧
      ∃ (v : Fin g.n) (str : String),
        g.node v = GNode.str str ∧ jsTrim str = s := by
  induction work, visited using dfsGo.induct g with
  | case1 visited =>
    intro s h
    rw [dfsGo.eq_def] at h
    simp at h
  | case2 v rest visited sstr hnode cand hmatch =>
    intro s h
    rw [dfsGo.eq_def] at h
    simp only [hnode] at h
    rw [if_pos hmatch] at h
    cases h
    exact ⟨hmatch, v, sstr, hnode, rfl⟩
  | case3 v rest visited sstr hnode cand hmatch ih =>
    intro s h
    rw [dfsGo.eq_def] at h
    simp only [hnode] at h
    rw [if_neg hmatch] at h
    exact ih s h
  | case4 v rest visited hnode ih =>
    intro s h
    rw [dfsGo.eq_def] at h
    simp only [hnode] at h
    exact ih s h
  | case5 v rest visited cs hnode hmem ih =>
    intro s h
    rw [dfsGo.eq_def] at h
    simp only [hnode] at h
    rw [if_pos hmem] at h
    exact ih s h
  | case6 v rest visited cs hnode hmem ih =>
    intro s h
    rw [dfsGo.eq_def] at h
    simp only [hnode] at h
    rw [if_neg hmem] at h
    exact ih s h

/-- C10.  deepSearchLineUserId is a total function of the value graph
(cycles included: the well-founded measure is the number of not yet
visited collection nodes, so each is entered at most once), and every
non-null answer is the trimmed form of a string found in the input and
matches the anchored case-insensitive pattern U followed by at least 16
hex digits. -/
theorem claim_C10_deep_search_sound (g : ObjGraph) (root : Fin g.n)
    (s : String) (h : deepSearchLineUserId g root = some s) :
    isLineUserId s = true ∧
    ∃ (v : Fin g.n) (str : String),
      g.node v = GNode.str str ∧ jsTrim str = s :=
  dfsGo_sound g [root] ∅ s h

/-- C10 witness: on the cyclic graph the search terminates and returns
the trimmed embedded id, certified sound by the claim theorem. -/
theorem claim_C10_deep_search_sound_witness :
    isLineUserId "U0123456789abcdef" = true ∧
    ∃ (v : Fin cycGraph.n) (str : String),
      cycGraph.node v = GNode.str str
        ∧ jsTrim str = "U0123456789abcdef" :=
  claim_C10_deep_search_sound cycGraph cycRoot _ (by
    show dfsGo cycGraph [cycRoot] ∅ = some "U0123456789abcdef"
    rw [dfsGo.eq_def]
    simp +decide [cycGraph, cycRoot]
    rw [dfsGo.eq_def]
    simp +decide
    rw [dfsGo.eq_def]
    simp +decide)
